import Mathlib

/-!
Verification of the address-validator service: a shallow embedding of the
provider adapters (Google / Smarty), their status classifiers, and the
fallback orchestrator, together with theorems settling the specification
claims.  Definitions mirror the TypeScript sources
`src/common/services/googleService.ts`, `src/common/services/smartyService.ts`
and `src/api/address/addressService.ts`.
-/

namespace AddressValidator

/-- Canonical validation status (` "VALID" | "CORRECTED" | "UNVERIFIABLE" `). -/
inductive ValidationStatus where
  | VALID
  | CORRECTED
  | UNVERIFIABLE
  deriving Repr, DecidableEq

/-- Provider identifier (` "google" | "smarty" `). -/
inductive Provider where
  | google
  | smarty
  deriving Repr, DecidableEq

/-- Models `StandardizedAddress`: optional fields, `none` is an absent (undefined) field. -/
structure StandardizedAddress where
  number : Option String := none
  street : Option String := none
  city : Option String := none
  state : Option String := none
  zip : Option String := none
  deriving Repr, DecidableEq

/-- JavaScript truthiness of a possibly-absent string: `undefined` and `""` are falsy. -/
def strTruthy : Option String → Bool
  | none => false
  | some s => s ≠ ""

/-- JavaScript `String.prototype.includes`: substring containment. -/
def strIncludes (hay needle : String) : Bool :=
  decide (needle.toList <:+: hay.toList)

/-- ASCII lower-casing of one character, as JS `toLowerCase` acts on ASCII. -/
def charToLower (c : Char) : Char :=
  if 'A' ≤ c ∧ c ≤ 'Z' then Char.ofNat (c.toNat + 32) else c

/-- JavaScript `String.prototype.toLowerCase` (ASCII fragment). -/
def strToLower (s : String) : String :=
  (s.toList.map charToLower).asString

/-- JavaScript `String.prototype.substring(0, n)`: the first `n` characters. -/
def strTake (s : String) (n : Nat) : String :=
  (s.toList.take n).asString

/-- JavaScript `String.prototype.length` (character count). -/
def strLength (s : String) : Nat :=
  s.toList.length

/-! ## Smarty (provider B) data model, from `smartyService.ts` -/

structure SmartyAnalysis where
  dpv_match_code : String
  dpv_footnotes : String
  dpv_cmra : String
  dpv_vacant : String
  active : String
  footnotes : Option String := none
  enhanced_match : Option String := none
  deriving Repr, DecidableEq

structure SmartyMetadata where
  record_type : String
  zip_type : String
  county_fips : String
  county_name : String
  carrier_route : String
  congressional_district : String
  rdi : String
  elot_sequence : String
  elot_sort : String
  latitude : Int
  longitude : Int
  precision : String
  time_zone : String
  utc_offset : Int
  dst : Bool
  deriving Repr, DecidableEq

structure SmartyComponents where
  primary_number : Option String := none
  street_name : Option String := none
  street_predirection : Option String := none
  street_postdirection : Option String := none
  street_suffix : Option String := none
  secondary_number : Option String := none
  secondary_designator : Option String := none
  city_name : Option String := none
  state_abbreviation : Option String := none
  zipcode : Option String := none
  plus4_code : Option String := none
  deriving Repr, DecidableEq

structure SmartyCandidate where
  delivery_line_1 : String
  last_line : String
  components : SmartyComponents
  metadata : SmartyMetadata
  analysis : SmartyAnalysis
  deriving Repr, DecidableEq

/-- Adapter result tuple `{standardized, status, corrections, warnings}`. -/
structure ServiceResult where
  standardized : StandardizedAddress
  status : ValidationStatus
  corrections : List String
  warnings : List String
  deriving Repr, DecidableEq

/-- Models `SmartyService.extractStandardizedAddress`: street is the space-join of the
truthy parts in the order predirection, name, suffix, postdirection (absent when
no part survives); zip is `zipcode-plus4` when both are truthy, else `zipcode`. -/
def extractStandardizedAddress (components : SmartyComponents) : StandardizedAddress :=
  let streetParts :=
    ([components.street_predirection, components.street_name,
      components.street_suffix, components.street_postdirection].filter strTruthy).filterMap id
  let street := if streetParts.length > 0 then some (String.intercalate " " streetParts) else none
  let zip :=
    if strTruthy components.zipcode && strTruthy components.plus4_code then
      some (components.zipcode.getD "" ++ "-" ++ components.plus4_code.getD "")
    else components.zipcode
  { number := components.primary_number
    street := street
    city := components.city_name
    state := components.state_abbreviation
    zip := zip }

/-- The mutable locals of one classification pass:
`let status; const corrections; const warnings`. -/
structure ClassifierState where
  status : ValidationStatus
  corrections : List String
  warnings : List String
  deriving Repr, DecidableEq

/-- The initial classifier state: `status = "VALID"`, empty lists. -/
def initialState : ClassifierState :=
  { status := ValidationStatus.VALID, corrections := [], warnings := [] }

/-- Models `if (analysis.dpv_match_code === "N") ... else if (... "S" || ... "D") ...`. -/
def smartyMatchCodeStep (code : String) (s : ClassifierState) : ClassifierState :=
  if code = "N" then
    { s with status := ValidationStatus.UNVERIFIABLE
             warnings := s.warnings ++ ["Address could not be confirmed by USPS"] }
  else if code = "S" || code = "D" then
    { s with status := ValidationStatus.CORRECTED
             warnings := s.warnings ++ ["Address is missing secondary information (apt, suite, etc.)"] }
  else s

/-- Models `if (analysis.enhanced_match) ...`. -/
def smartyEnhancedStep (enhanced_match : Option String) (s : ClassifierState) : ClassifierState :=
  if strTruthy enhanced_match then
    { s with status := ValidationStatus.CORRECTED
             corrections := s.corrections ++ ["Address was enhanced or corrected"] }
  else s

/-- The delivery-line heuristic: the lower-cased input must contain the first
twenty characters of the lower-cased delivery line, else a still-VALID status
becomes CORRECTED. -/
def smartyDeliveryLineStep (delivery_line_1 originalAddress : String)
    (s : ClassifierState) : ClassifierState :=
  let deliveryLine := strToLower delivery_line_1
  let inputLower := strToLower originalAddress
  if !(strIncludes inputLower (strTake deliveryLine (min 20 (strLength deliveryLine)))) then
    if s.status = ValidationStatus.VALID then
      { s with status := ValidationStatus.CORRECTED
               corrections := s.corrections ++ ["Address format was standardized"] }
    else s
  else s

/-- Models `if (analysis.dpv_vacant === "Y") ...` (warning only). -/
def smartyVacantStep (dpv_vacant : String) (s : ClassifierState) : ClassifierState :=
  if dpv_vacant = "Y" then
    { s with warnings := s.warnings ++ ["Address is marked as vacant"] }
  else s

/-- Models `if (metadata.record_type !== "S" && ... !== "H") ...` (warning only). -/
def smartyRecordTypeStep (record_type : String) (s : ClassifierState) : ClassifierState :=
  if record_type ≠ "S" && record_type ≠ "H" then
    { s with warnings := s.warnings ++ ["Address record type is " ++ record_type] }
  else s

/-- Models `SmartyService.parseSmartyResponse`: the source's straight-line statements,
applied in order to the initial state. -/
def parseSmartyResponse (candidate : SmartyCandidate) (originalAddress : String) : ServiceResult :=
  let analysis := candidate.analysis
  let metadata := candidate.metadata
  let components := candidate.components
  let s :=
    smartyRecordTypeStep metadata.record_type
      (smartyVacantStep analysis.dpv_vacant
        (smartyDeliveryLineStep candidate.delivery_line_1 originalAddress
          (smartyEnhancedStep analysis.enhanced_match
            (smartyMatchCodeStep analysis.dpv_match_code initialState))))
  { standardized := extractStandardizedAddress components
    status := s.status
    corrections := s.corrections
    warnings := s.warnings }

/-- The response-handling tail of `SmartyService.validateAddress`: an empty
result set short-circuits; otherwise the first candidate is classified. -/
def smartyHandleData : List SmartyCandidate → String → ServiceResult
  | [], _ =>
    { standardized := {}
      status := ValidationStatus.UNVERIFIABLE
      corrections := []
      warnings := ["No matching address found"] }
  | candidate :: _, address => parseSmartyResponse candidate address

/-! ## Google (provider A) data model, from `googleService.ts` -/

inductive ConfirmationLevel where
  | CONFIRMED
  | UNCONFIRMED_BUT_PLAUSIBLE
  | UNCONFIRMED_AND_SUSPICIOUS
  deriving Repr, DecidableEq

structure ComponentName where
  text : String
  languageCode : String
  deriving Repr, DecidableEq

structure GoogleAddressComponent where
  componentName : ComponentName
  componentType : String
  confirmationLevel : ConfirmationLevel
  deriving Repr, DecidableEq

structure GoogleVerdict where
  inputGranularity : String
  validationGranularity : String
  geocodeGranularity : String
  addressComplete : Bool
  hasUnconfirmedComponents : Bool
  hasInferredComponents : Bool
  hasReplacedComponents : Bool
  deriving Repr, DecidableEq

structure PostalAddress where
  regionCode : String
  languageCode : String
  postalCode : String
  administrativeArea : String
  locality : String
  addressLines : List String
  deriving Repr, DecidableEq

structure GoogleAddress where
  formattedAddress : String
  postalAddress : PostalAddress
  addressComponents : List GoogleAddressComponent
  deriving Repr, DecidableEq

structure GoogleValidationResult where
  verdict : GoogleVerdict
  address : GoogleAddress
  deriving Repr, DecidableEq

structure GoogleValidationResponse where
  result : GoogleValidationResult
  deriving Repr, DecidableEq

/-- Models `GoogleService.extractStandardizedAddress`: number/street from the first
component of the matching type; city/state/zip from the postal address, falsy
(empty) strings becoming absent. -/
def extractStandardizedAddressG (address : GoogleAddress) : StandardizedAddress :=
  let components := address.addressComponents
  let postalAddress := address.postalAddress
  let streetNumber :=
    (components.find? (fun c => c.componentType = "street_number")).map (·.componentName.text)
  let route :=
    (components.find? (fun c => c.componentType = "route")).map (·.componentName.text)
  { number := streetNumber
    street := route
    city := if postalAddress.locality = "" then none else some postalAddress.locality
    state := if postalAddress.administrativeArea = "" then none else some postalAddress.administrativeArea
    zip := if postalAddress.postalCode = "" then none else some postalAddress.postalCode }

/-- Models `if (address.postalAddress.regionCode && regionCode !== "US") ...`. -/
def googleRegionStep (regionCode : String) (s : ClassifierState) : ClassifierState :=
  if regionCode ≠ "" && regionCode ≠ "US" then
    { s with status := ValidationStatus.UNVERIFIABLE
             warnings := s.warnings ++
               ["Non-US address detected (" ++ regionCode ++ "). Only US addresses are supported."] }
  else s

/-- Models `if (!verdict.addressComplete) ...`. -/
def googleCompleteStep (addressComplete : Bool) (s : ClassifierState) : ClassifierState :=
  if !addressComplete then
    { s with status := ValidationStatus.UNVERIFIABLE
             warnings := s.warnings ++ ["Address is incomplete"] }
  else s

/-- Models `if (verdict.hasReplacedComponents) ...` — note: assigns CORRECTED
unconditionally, with no check of the current status. -/
def googleReplacedStep (hasReplacedComponents : Bool) (s : ClassifierState) : ClassifierState :=
  if hasReplacedComponents then
    { s with status := ValidationStatus.CORRECTED
             corrections := s.corrections ++ ["Address components were corrected or replaced"] }
  else s

/-- Models `if (verdict.hasUnconfirmedComponents) ...`: suspicious components force
UNVERIFIABLE; otherwise a still-VALID status becomes CORRECTED. -/
def googleUnconfirmedStep (hasUnconfirmedComponents : Bool)
    (addressComponents : List GoogleAddressComponent) (s : ClassifierState) : ClassifierState :=
  if hasUnconfirmedComponents then
    let unconfirmedComponents :=
      addressComponents.filter (fun c => c.confirmationLevel ≠ ConfirmationLevel.CONFIRMED)
    if unconfirmedComponents.any
        (fun c => c.confirmationLevel = ConfirmationLevel.UNCONFIRMED_AND_SUSPICIOUS) then
      { s with status := ValidationStatus.UNVERIFIABLE
               warnings := s.warnings ++ ["Address contains suspicious components"] }
    else if s.status = ValidationStatus.VALID then
      { s with status := ValidationStatus.CORRECTED
               warnings := s.warnings ++ ["Address contains unconfirmed but plausible components"] }
    else s
  else s

/-- Models `if (verdict.validationGranularity === "OTHER" || ... === "GRANULARITY_UNSPECIFIED") ...`. -/
def googleGranularityStep (validationGranularity : String) (s : ClassifierState) : ClassifierState :=
  if validationGranularity = "OTHER" || validationGranularity = "GRANULARITY_UNSPECIFIED" then
    { s with status := ValidationStatus.UNVERIFIABLE
             warnings := s.warnings ++ ["Address validation granularity is insufficient"] }
  else s

/-- Models `GoogleService.parseGoogleResponse`: the source's straight-line statements,
applied in order to the initial state. -/
def parseGoogleResponse (response : GoogleValidationResponse) : ServiceResult :=
  let verdict := response.result.verdict
  let address := response.result.address
  let s :=
    googleGranularityStep verdict.validationGranularity
      (googleUnconfirmedStep verdict.hasUnconfirmedComponents address.addressComponents
        (googleReplacedStep verdict.hasReplacedComponents
          (googleCompleteStep verdict.addressComplete
            (googleRegionStep address.postalAddress.regionCode initialState))))
  { standardized := extractStandardizedAddressG address
    status := s.status
    corrections := s.corrections
    warnings := s.warnings }

/-! ## Fallback orchestrator, from `addressService.ts`

The adapters' network calls either resolve with a `ServiceResult` or reject
with an error message; we model each provider call outcome as
`Except String ServiceResult` supplied as a parameter. -/

structure AddressValidationResponse where
  input : String
  standardized : StandardizedAddress
  status : ValidationStatus
  corrections : List String
  provider : Provider
  warnings : List String
  deriving Repr, DecidableEq

/-- Models `AddressService.validateWithGoogle`: wrap the adapter outcome, tagging
`provider: "google"`; an adapter error propagates. -/
def validateWithGoogle (address : String) (googleCall : Except String ServiceResult) :
    Except String AddressValidationResponse :=
  googleCall.map fun result =>
    { input := address
      standardized := result.standardized
      status := result.status
      corrections := result.corrections
      provider := Provider.google
      warnings := result.warnings }

/-- Models `AddressService.validateWithSmarty`: wrap the adapter outcome, tagging
`provider: "smarty"`; an adapter error propagates. -/
def validateWithSmarty (address : String) (smartyCall : Except String ServiceResult) :
    Except String AddressValidationResponse :=
  smartyCall.map fun result =>
    { input := address
      standardized := result.standardized
      status := result.status
      corrections := result.corrections
      provider := Provider.smarty
      warnings := result.warnings }

/-- Models `AddressService.validateWithFallback`, instrumented: the second component
records whether the Smarty adapter was invoked on this execution path. -/
def validateWithFallbackTr (address : String)
    (googleCall smartyCall : Except String ServiceResult) :
    Except String AddressValidationResponse × Bool :=
  match validateWithGoogle address googleCall with
  | Except.ok googleResponse =>
    if googleResponse.status = ValidationStatus.UNVERIFIABLE then
      match validateWithSmarty address smartyCall with
      | Except.ok smartyResponse => (Except.ok smartyResponse, true)
      | Except.error _ => (Except.ok googleResponse, true)
    else (Except.ok googleResponse, false)
  | Except.error googleError =>
    match validateWithSmarty address smartyCall with
    | Except.ok smartyResponse => (Except.ok smartyResponse, true)
    | Except.error smartyError =>
      (Except.error ("Both providers failed - Google: " ++ googleError
        ++ ", Smarty: " ++ smartyError), true)

/-- Models `AddressService.validateWithFallback`: the returned outcome. -/
def validateWithFallback (address : String)
    (googleCall smartyCall : Except String ServiceResult) :
    Except String AddressValidationResponse :=
  (validateWithFallbackTr address googleCall smartyCall).1

/-- Models `AddressService.validateAddress`: explicit provider dispatch, else fallback. -/
def validateAddress (address : String) (provider : Option Provider)
    (googleCall smartyCall : Except String ServiceResult) :
    Except String AddressValidationResponse :=
  match provider with
  | some Provider.google => validateWithGoogle address googleCall
  | some Provider.smarty => validateWithSmarty address smartyCall
  | none => validateWithFallback address googleCall smartyCall

/-! ## Concrete fixture inputs used by counterexamples and witnesses -/

def sAnalysisBase : SmartyAnalysis :=
  { dpv_match_code := "Y", dpv_footnotes := "AABB", dpv_cmra := "N", dpv_vacant := "N",
    active := "Y" }

def sMetadataBase : SmartyMetadata :=
  { record_type := "S", zip_type := "Standard", county_fips := "06085",
    county_name := "Santa Clara", carrier_route := "C909", congressional_district := "18",
    rdi := "Commercial", elot_sequence := "0031", elot_sort := "A",
    latitude := 37, longitude := -122, precision := "Zip9", time_zone := "Pacific",
    utc_offset := -8, dst := true }

def sComponentsBase : SmartyComponents :=
  { primary_number := some "1600", street_name := some "Amphitheatre",
    street_suffix := some "Pkwy", city_name := some "Mountain View",
    state_abbreviation := some "CA", zipcode := some "94043", plus4_code := some "1351" }

def sCandidateBase : SmartyCandidate :=
  { delivery_line_1 := "1600 Amphitheatre Pkwy",
    last_line := "Mountain View CA 94043-1351",
    components := sComponentsBase, metadata := sMetadataBase, analysis := sAnalysisBase }

/-- A candidate USPS could not confirm (`dpv_match_code = "N"`), nothing else set. -/
def sCandidateN : SmartyCandidate :=
  { sCandidateBase with analysis := { sAnalysisBase with dpv_match_code := "N" } }

/-- A candidate with `dpv_match_code = "N"` and a truthy `enhanced_match`. -/
def sCandidateNEnhanced : SmartyCandidate :=
  { sCandidateBase with analysis :=
      { sAnalysisBase with dpv_match_code := "N", enhanced_match := some "enhanced" } }

def gVerdictBase : GoogleVerdict :=
  { inputGranularity := "PREMISE", validationGranularity := "PREMISE",
    geocodeGranularity := "PREMISE", addressComplete := true,
    hasUnconfirmedComponents := false, hasInferredComponents := false,
    hasReplacedComponents := false }

def gPostalUS : PostalAddress :=
  { regionCode := "US", languageCode := "en", postalCode := "94043",
    administrativeArea := "CA", locality := "Mountain View",
    addressLines := ["1600 Amphitheatre Parkway"] }

def gAddressBase : GoogleAddress :=
  { formattedAddress := "1600 Amphitheatre Parkway, Mountain View, CA 94043, USA",
    postalAddress := gPostalUS,
    addressComponents :=
      [ { componentName := { text := "1600", languageCode := "en" },
          componentType := "street_number", confirmationLevel := ConfirmationLevel.CONFIRMED },
        { componentName := { text := "Amphitheatre Parkway", languageCode := "en" },
          componentType := "route", confirmationLevel := ConfirmationLevel.CONFIRMED } ] }

/-- A fully confirmed US response: every claim-C6 hypothesis holds. -/
def gResponseValid : GoogleValidationResponse :=
  { result := { verdict := gVerdictBase, address := gAddressBase } }

/-- A non-US response whose components were also replaced: the non-US rule fires
first (UNVERIFIABLE), then the replaced-components rule overwrites the status. -/
def gResponseNonUSReplaced : GoogleValidationResponse :=
  { result :=
    { verdict := { gVerdictBase with hasReplacedComponents := true }
      address := { gAddressBase with postalAddress := { gPostalUS with regionCode := "CA" } } } }

/-- A response meeting all of claim C6's listed conditions but with validation
granularity `"OTHER"`. -/
def gResponseGranularityOther : GoogleValidationResponse :=
  { result :=
    { verdict := { gVerdictBase with validationGranularity := "OTHER" }
      address := gAddressBase } }

/-- A Google adapter success with UNVERIFIABLE status, for orchestrator fixtures. -/
def gUnverifiableResult : ServiceResult :=
  { standardized := {}, status := ValidationStatus.UNVERIFIABLE,
    corrections := [], warnings := ["Address is incomplete"] }

/-- A Google adapter success with VALID status, for orchestrator fixtures. -/
def gValidResult : ServiceResult :=
  { standardized := {}, status := ValidationStatus.VALID, corrections := [], warnings := [] }

/-- A Smarty adapter success, for orchestrator fixtures. -/
def sOkResult : ServiceResult :=
  { standardized := {}, status := ValidationStatus.CORRECTED,
    corrections := ["Address format was standardized"], warnings := [] }

/-- The AddressValidationResponse the orchestrator builds from `gUnverifiableResult`. -/
def gUnvResponse : AddressValidationResponse :=
  { input := "a", standardized := {}, status := ValidationStatus.UNVERIFIABLE,
    corrections := [], provider := Provider.google, warnings := ["Address is incomplete"] }

/-- The AddressValidationResponse the orchestrator builds from `gValidResult`. -/
def gValidResponse : AddressValidationResponse :=
  { input := "a", standardized := {}, status := ValidationStatus.VALID,
    corrections := [], provider := Provider.google, warnings := [] }

/-- The street parts as the spec words them: the non-empty entries among
predirection, name, suffix, postdirection, in that fixed order (an absent part
counting as empty). -/
def smartyStreetParts (components : SmartyComponents) : List String :=
  [components.street_predirection.getD "", components.street_name.getD "",
   components.street_suffix.getD "", components.street_postdirection.getD ""].filter
    (fun s => s ≠ "")

/-- A non-VALID classifier state always carries at least one message. -/
def Messaged (s : ClassifierState) : Prop :=
  s.status ≠ ValidationStatus.VALID → s.corrections ++ s.warnings ≠ []

end AddressValidator

namespace AddressValidator

/-! ## Helper lemmas -/

lemma filter_truthy_eq (l : List (Option String)) :
    (l.filter strTruthy).filterMap id =
      (l.map (fun o => o.getD "")).filter (fun s => s ≠ "") := by
  induction l with
  | nil => rfl
  | cons o l ih =>
    cases o with
    | none => simpa [strTruthy] using ih
    | some s =>
      by_cases hs : s = "" <;> simp [strTruthy, hs, ih]

lemma messaged_initial : Messaged initialState := by
  intro h
  simp [initialState] at h

lemma messaged_cases {s t : ClassifierState} (h : Messaged s)
    (ht : t = s ∨ t.corrections ++ t.warnings ≠ []) : Messaged t := by
  rcases ht with rfl | ht
  · exact h
  · intro _
    exact ht

lemma messaged_googleRegionStep (r : String) (s : ClassifierState) (h : Messaged s) :
    Messaged (googleRegionStep r s) :=
  messaged_cases h (by unfold googleRegionStep; split_ifs <;> simp [List.append_eq_nil])

lemma messaged_googleCompleteStep (b : Bool) (s : ClassifierState) (h : Messaged s) :
    Messaged (googleCompleteStep b s) :=
  messaged_cases h (by unfold googleCompleteStep; split_ifs <;> simp [List.append_eq_nil])

lemma messaged_googleReplacedStep (b : Bool) (s : ClassifierState) (h : Messaged s) :
    Messaged (googleReplacedStep b s) :=
  messaged_cases h (by unfold googleReplacedStep; split_ifs <;> simp [List.append_eq_nil])

lemma messaged_googleUnconfirmedStep (b : Bool) (l : List GoogleAddressComponent)
    (s : ClassifierState) (h : Messaged s) : Messaged (googleUnconfirmedStep b l s) := by
  refine messaged_cases h ?_
  unfold googleUnconfirmedStep
  cases b
  · left
    rfl
  · simp only [eq_self_iff_true, if_true]
    cases ha : (l.filter (fun c => c.confirmationLevel ≠ ConfirmationLevel.CONFIRMED)).any
        (fun c => c.confirmationLevel = ConfirmationLevel.UNCONFIRMED_AND_SUSPICIOUS)
    case true =>
      right
      simp [List.append_eq_nil]
    case false =>
      by_cases hs : s.status = ValidationStatus.VALID
      · right
        simp [hs, List.append_eq_nil]
      · left
        simp [hs]

lemma messaged_googleGranularityStep (g : String) (s : ClassifierState) (h : Messaged s) :
    Messaged (googleGranularityStep g s) :=
  messaged_cases h (by unfold googleGranularityStep; split_ifs <;> simp [List.append_eq_nil])

lemma messaged_smartyMatchCodeStep (c : String) (s : ClassifierState) (h : Messaged s) :
    Messaged (smartyMatchCodeStep c s) :=
  messaged_cases h (by unfold smartyMatchCodeStep; split_ifs <;> simp [List.append_eq_nil])

lemma messaged_smartyEnhancedStep (e : Option String) (s : ClassifierState) (h : Messaged s) :
    Messaged (smartyEnhancedStep e s) :=
  messaged_cases h (by unfold smartyEnhancedStep; split_ifs <;> simp [List.append_eq_nil])

lemma messaged_smartyDeliveryLineStep (d a : String) (s : ClassifierState) (h : Messaged s) :
    Messaged (smartyDeliveryLineStep d a s) := by
  refine messaged_cases h ?_
  unfold smartyDeliveryLineStep
  by_cases hc : strIncludes (strToLower a)
      (strTake (strToLower d) (min 20 (strLength (strToLower d)))) = true
  · left
    simp [hc]
  · by_cases hs : s.status = ValidationStatus.VALID
    · right
      simp [hc, hs, List.append_eq_nil]
    · left
      simp [hc, hs]

lemma messaged_smartyVacantStep (v : String) (s : ClassifierState) (h : Messaged s) :
    Messaged (smartyVacantStep v s) := by
  refine messaged_cases h ?_
  unfold smartyVacantStep
  split_ifs with hv
  · right
    simp [List.append_eq_nil]
  · left
    rfl

lemma messaged_smartyRecordTypeStep (r : String) (s : ClassifierState) (h : Messaged s) :
    Messaged (smartyRecordTypeStep r s) := by
  refine messaged_cases h ?_
  unfold smartyRecordTypeStep
  split_ifs with hv
  · right
    simp [List.append_eq_nil]
  · left
    rfl

lemma googleGranularityStep_noop (g : String) (s : ClassifierState)
    (hg1 : g ≠ "OTHER") (hg2 : g ≠ "GRANULARITY_UNSPECIFIED") :
    googleGranularityStep g s = s := by
  simp [googleGranularityStep, hg1, hg2]

lemma googleUnconfirmedStep_status_of_ne (b : Bool) (l : List GoogleAddressComponent)
    (s : ClassifierState)
    (hn : b = false ∨ (l.filter (fun c => c.confirmationLevel ≠ ConfirmationLevel.CONFIRMED)).any
        (fun c => c.confirmationLevel = ConfirmationLevel.UNCONFIRMED_AND_SUSPICIOUS) = false)
    (hs : s.status ≠ ValidationStatus.VALID) :
    (googleUnconfirmedStep b l s).status = s.status := by
  unfold googleUnconfirmedStep
  rcases hn with hn | hn
  · rw [hn]
    simp
  · cases b
    · simp
    · simp only [eq_self_iff_true, if_true]
      rw [hn]
      simp [hs]

lemma toList_append (a b : String) : (a ++ b).toList = a.toList ++ b.toList := by
  simp [String.toList]

lemma strIncludes_of_parts (p m q : String) : strIncludes (p ++ m ++ q) m = true := by
  unfold strIncludes
  apply decide_eq_true
  exact ⟨p.toList, q.toList, by simp [toList_append]⟩

/-! ## Claim theorems -/

/-- C1 (counterexample): a non-US response (region "CA") with replaced components
triggers the non-US rule (its warning is recorded, status set UNVERIFIABLE), yet
`parseGoogleResponse` returns CORRECTED — the replaced-components rule overwrote
the UNVERIFIABLE status, so the final status is not the most severe one assigned. -/
theorem google_nonUS_replaced_counterexample :
    gResponseNonUSReplaced.result.address.postalAddress.regionCode = "CA" ∧
    gResponseNonUSReplaced.result.verdict.hasReplacedComponents = true ∧
    (parseGoogleResponse gResponseNonUSReplaced).warnings =
      ["Non-US address detected (CA). Only US addresses are supported."] ∧
    (parseGoogleResponse gResponseNonUSReplaced).status = ValidationStatus.CORRECTED ∧
    (parseGoogleResponse gResponseNonUSReplaced).status ≠ ValidationStatus.UNVERIFIABLE :=
  ⟨rfl, rfl, rfl, rfl, by decide⟩

/-- C1 (amended): in `parseGoogleResponse` the `hasReplacedComponents` rule assigns
CORRECTED unconditionally, overwriting an UNVERIFIABLE set by the non-US or
incomplete rules; whenever such an earlier rule fired, `hasReplacedComponents` is
true, and neither the suspicious-components rule nor the granularity rule fires
afterwards, the final status is CORRECTED rather than the most severe assigned. -/
theorem google_replaced_overwrites_unverifiable (response : GoogleValidationResponse)
    (hsev : (response.result.address.postalAddress.regionCode ≠ "" ∧
             response.result.address.postalAddress.regionCode ≠ "US") ∨
            response.result.verdict.addressComplete = false)
    (hrepl : response.result.verdict.hasReplacedComponents = true)
    (hnosusp : response.result.verdict.hasUnconfirmedComponents = false ∨
      (response.result.address.addressComponents.filter
        (fun c => c.confirmationLevel ≠ ConfirmationLevel.CONFIRMED)).any
        (fun c => c.confirmationLevel = ConfirmationLevel.UNCONFIRMED_AND_SUSPICIOUS) = false)
    (hg1 : response.result.verdict.validationGranularity ≠ "OTHER")
    (hg2 : response.result.verdict.validationGranularity ≠ "GRANULARITY_UNSPECIFIED") :
    (parseGoogleResponse response).status = ValidationStatus.CORRECTED := by
  unfold parseGoogleResponse
  dsimp only
  have hrep : (googleReplacedStep response.result.verdict.hasReplacedComponents
      (googleCompleteStep response.result.verdict.addressComplete
        (googleRegionStep response.result.address.postalAddress.regionCode initialState))).status
      = ValidationStatus.CORRECTED := by
    rw [hrepl]
    simp [googleReplacedStep]
  rw [googleGranularityStep_noop _ _ hg1 hg2,
    googleUnconfirmedStep_status_of_ne _ _ _ hnosusp (by rw [hrep]; simp)]
  exact hrep

theorem google_replaced_overwrites_unverifiable_witness :
    (gResponseNonUSReplaced.result.address.postalAddress.regionCode ≠ "" ∧
     gResponseNonUSReplaced.result.address.postalAddress.regionCode ≠ "US") ∧
    gResponseNonUSReplaced.result.verdict.hasReplacedComponents = true ∧
    (parseGoogleResponse gResponseNonUSReplaced).status = ValidationStatus.CORRECTED :=
  ⟨⟨by decide, by decide⟩, rfl,
    google_replaced_overwrites_unverifiable gResponseNonUSReplaced
      (Or.inl ⟨by decide, by decide⟩) rfl (Or.inl rfl) (by decide) (by decide)⟩

/-- C2 (counterexample): a Smarty candidate with `dpv_match_code = "N"` and a
truthy `enhanced_match` is classified CORRECTED, not UNVERIFIABLE — the
enhanced-match rule overwrites the status set by the "N" rule. -/
theorem smarty_dpvN_enhanced_counterexample :
    sCandidateNEnhanced.analysis.dpv_match_code = "N" ∧
    (parseSmartyResponse sCandidateNEnhanced ("123 Main St")).status = ValidationStatus.CORRECTED ∧
    (parseSmartyResponse sCandidateNEnhanced ("123 Main St")).status ≠ ValidationStatus.UNVERIFIABLE :=
  ⟨rfl, rfl, by decide⟩

/-- C2 (amended): for every Smarty candidate with `dpv_match_code = "N"`, the
warnings contain "Address could not be confirmed by USPS" regardless of the other
fields; the status is UNVERIFIABLE provided `enhanced_match` is absent or empty
(a truthy `enhanced_match` overwrites the status to CORRECTED). -/
theorem smarty_dpvN_warning_status (candidate : SmartyCandidate) (address : String)
    (h : candidate.analysis.dpv_match_code = "N") :
    "Address could not be confirmed by USPS" ∈ (parseSmartyResponse candidate address).warnings ∧
    (strTruthy candidate.analysis.enhanced_match = false →
      (parseSmartyResponse candidate address).status = ValidationStatus.UNVERIFIABLE) := by
  unfold parseSmartyResponse smartyRecordTypeStep smartyVacantStep smartyDeliveryLineStep
    smartyEnhancedStep smartyMatchCodeStep initialState
  simp only [h]
  split_ifs <;> simp_all

theorem smarty_dpvN_witness :
    sCandidateN.analysis.dpv_match_code = "N" ∧
    strTruthy sCandidateN.analysis.enhanced_match = false ∧
    "Address could not be confirmed by USPS" ∈ (parseSmartyResponse sCandidateN ("x")).warnings ∧
    (parseSmartyResponse sCandidateN ("x")).status = ValidationStatus.UNVERIFIABLE :=
  ⟨rfl, by decide, (smarty_dpvN_warning_status sCandidateN ("x") rfl).1,
    (smarty_dpvN_warning_status sCandidateN ("x") rfl).2 (by decide)⟩

/-- C3: in the automatic-fallback path, when the Google call succeeds with an
UNVERIFIABLE outcome, Smarty is invoked; a Smarty error is swallowed and Google's
original outcome returned, while a Smarty success is returned tagged provider
"smarty", whatever its own status. -/
theorem fallback_unverifiable_second_opinion (address : String)
    (googleCall smartyCall : Except String ServiceResult)
    (googleResponse : AddressValidationResponse)
    (hg : validateWithGoogle address googleCall = Except.ok googleResponse)
    (hu : googleResponse.status = ValidationStatus.UNVERIFIABLE) :
    (validateWithFallbackTr address googleCall smartyCall).2 = true ∧
    (∀ e, smartyCall = Except.error e →
      validateWithFallback address googleCall smartyCall = Except.ok googleResponse) ∧
    (∀ sres, smartyCall = Except.ok sres →
      validateWithFallback address googleCall smartyCall = Except.ok
        { input := address, standardized := sres.standardized, status := sres.status,
          corrections := sres.corrections, provider := Provider.smarty,
          warnings := sres.warnings }) := by
  unfold validateWithFallback validateWithFallbackTr
  rw [hg]
  cases smartyCall with
  | ok sres => simp [hu, validateWithSmarty, Except.map]
  | error e => simp [hu, validateWithSmarty, Except.map]

theorem fallback_unverifiable_second_opinion_witness :
    validateWithGoogle ("a") (Except.ok gUnverifiableResult) = Except.ok gUnvResponse ∧
    gUnvResponse.status = ValidationStatus.UNVERIFIABLE ∧
    (validateWithFallbackTr ("a") (Except.ok gUnverifiableResult)
      (Except.error ("smarty down"))).2 = true ∧
    validateWithFallback ("a") (Except.ok gUnverifiableResult) (Except.error ("smarty down")) =
      Except.ok gUnvResponse :=
  ⟨rfl, rfl,
    (fallback_unverifiable_second_opinion ("a") (Except.ok gUnverifiableResult)
      (Except.error ("smarty down")) gUnvResponse rfl rfl).1,
    (fallback_unverifiable_second_opinion ("a") (Except.ok gUnverifiableResult)
      (Except.error ("smarty down")) gUnvResponse rfl rfl).2.1 ("smarty down") rfl⟩

/-- C4: in the automatic-fallback path, when the Google call succeeds with VALID
or CORRECTED, Smarty is not invoked, Google's outcome is returned, and the result
is identical for every behavior of the Smarty call. -/
theorem fallback_skips_smarty_when_acceptable (address : String)
    (googleCall smartyCall : Except String ServiceResult)
    (googleResponse : AddressValidationResponse)
    (hg : validateWithGoogle address googleCall = Except.ok googleResponse)
    (hs : googleResponse.status = ValidationStatus.VALID ∨
          googleResponse.status = ValidationStatus.CORRECTED) :
    (validateWithFallbackTr address googleCall smartyCall).2 = false ∧
    validateAddress address none googleCall smartyCall = Except.ok googleResponse ∧
    (∀ smartyCall', validateWithFallback address googleCall smartyCall' =
      validateWithFallback address googleCall smartyCall) := by
  have hne : googleResponse.status ≠ ValidationStatus.UNVERIFIABLE := by
    rcases hs with h | h <;> simp [h]
  unfold validateAddress validateWithFallback validateWithFallbackTr
  rw [hg]
  simp [hne]

theorem fallback_skips_smarty_witness :
    validateWithGoogle ("a") (Except.ok gValidResult) = Except.ok gValidResponse ∧
    gValidResponse.status = ValidationStatus.VALID ∧
    (validateWithFallbackTr ("a") (Except.ok gValidResult)
      (Except.error ("smarty down"))).2 = false ∧
    validateAddress ("a") none (Except.ok gValidResult) (Except.error ("smarty down")) =
      Except.ok gValidResponse :=
  ⟨rfl, rfl,
    (fallback_skips_smarty_when_acceptable ("a") (Except.ok gValidResult)
      (Except.error ("smarty down")) gValidResponse rfl (Or.inl rfl)).1,
    (fallback_skips_smarty_when_acceptable ("a") (Except.ok gValidResult)
      (Except.error ("smarty down")) gValidResponse rfl (Or.inl rfl)).2.1⟩

/-- C5: in the automatic-fallback path, when the Google call fails, Smarty is
invoked; a Smarty success is returned tagged provider "smarty", and a Smarty
failure yields a single combined error whose message contains both original
failure messages joined by the fixed separator. -/
theorem fallback_combined_error (address googleErr : String)
    (smartyCall : Except String ServiceResult) :
    (validateWithFallbackTr address (Except.error googleErr) smartyCall).2 = true ∧
    (∀ sres, smartyCall = Except.ok sres →
      validateWithFallback address (Except.error googleErr) smartyCall = Except.ok
        { input := address, standardized := sres.standardized, status := sres.status,
          corrections := sres.corrections, provider := Provider.smarty,
          warnings := sres.warnings }) ∧
    (∀ se, smartyCall = Except.error se →
      validateWithFallback address (Except.error googleErr) smartyCall =
        Except.error ("Both providers failed - Google: " ++ googleErr ++ ", Smarty: " ++ se) ∧
      strIncludes ("Both providers failed - Google: " ++ googleErr ++ ", Smarty: " ++ se)
        googleErr = true ∧
      strIncludes ("Both providers failed - Google: " ++ googleErr ++ ", Smarty: " ++ se)
        se = true) := by
  refine ⟨?_, ?_, ?_⟩
  · unfold validateWithFallbackTr
    cases smartyCall <;> simp [validateWithGoogle, validateWithSmarty, Except.map]
  · intro sres hsc
    subst hsc
    simp [validateWithFallback, validateWithFallbackTr, validateWithGoogle,
      validateWithSmarty, Except.map]
  · intro se hsc
    subst hsc
    refine ⟨by simp [validateWithFallback, validateWithFallbackTr, validateWithGoogle,
      validateWithSmarty, Except.map], ?_, ?_⟩
    · have h := strIncludes_of_parts ("Both providers failed - Google: ") googleErr
        (", Smarty: " ++ se)
      rw [← String.append_assoc] at h
      exact h
    · have h := strIncludes_of_parts
        ("Both providers failed - Google: " ++ googleErr ++ ", Smarty: ") se ("")
      simpa using h

theorem fallback_combined_error_witness :
    validateWithFallback ("a") (Except.error ("g down")) (Except.error ("s down")) =
      Except.error ("Both providers failed - Google: g down, Smarty: s down") ∧
    strIncludes ("Both providers failed - Google: g down, Smarty: s down") ("g down") = true ∧
    strIncludes ("Both providers failed - Google: g down, Smarty: s down") ("s down") = true := by
  obtain ⟨h1, h2, h3⟩ :=
    (fallback_combined_error ("a") ("g down") (Except.error ("s down"))).2.2 ("s down") rfl
  exact ⟨h1, h2, h3⟩

/-- C6 (counterexample): a response satisfying every condition listed by the claim
(addressComplete, no unconfirmed or replaced components, region "US") but whose
validation granularity is "OTHER" is classified UNVERIFIABLE, not VALID. -/
theorem google_granularity_other_counterexample :
    gResponseGranularityOther.result.verdict.addressComplete = true ∧
    gResponseGranularityOther.result.verdict.hasUnconfirmedComponents = false ∧
    gResponseGranularityOther.result.verdict.hasReplacedComponents = false ∧
    gResponseGranularityOther.result.address.postalAddress.regionCode = "US" ∧
    (parseGoogleResponse gResponseGranularityOther).status = ValidationStatus.UNVERIFIABLE ∧
    (parseGoogleResponse gResponseGranularityOther).status ≠ ValidationStatus.VALID :=
  ⟨rfl, rfl, rfl, rfl, rfl, by decide⟩

/-- C6 (amended): a Google response with addressComplete, no unconfirmed and no
replaced components, region "US", and validation granularity neither "OTHER" nor
"GRANULARITY_UNSPECIFIED" is classified exactly VALID with empty corrections and
empty warnings. -/
theorem google_valid_when_clean (response : GoogleValidationResponse)
    (hreg : response.result.address.postalAddress.regionCode = "US")
    (hcomplete : response.result.verdict.addressComplete = true)
    (hunconf : response.result.verdict.hasUnconfirmedComponents = false)
    (hrepl : response.result.verdict.hasReplacedComponents = false)
    (hg1 : response.result.verdict.validationGranularity ≠ "OTHER")
    (hg2 : response.result.verdict.validationGranularity ≠ "GRANULARITY_UNSPECIFIED") :
    (parseGoogleResponse response).status = ValidationStatus.VALID ∧
    (parseGoogleResponse response).corrections = [] ∧
    (parseGoogleResponse response).warnings = [] := by
  unfold parseGoogleResponse
  dsimp only
  rw [hreg, hcomplete, hunconf, hrepl, googleGranularityStep_noop _ _ hg1 hg2]
  simp [googleRegionStep, googleCompleteStep, googleReplacedStep, googleUnconfirmedStep,
    initialState]

theorem google_valid_when_clean_witness :
    gResponseValid.result.address.postalAddress.regionCode = "US" ∧
    (parseGoogleResponse gResponseValid).status = ValidationStatus.VALID ∧
    (parseGoogleResponse gResponseValid).corrections = [] ∧
    (parseGoogleResponse gResponseValid).warnings = [] :=
  ⟨rfl, (google_valid_when_clean gResponseValid rfl rfl rfl rfl (by decide) (by decide)).1,
    (google_valid_when_clean gResponseValid rfl rfl rfl rfl (by decide) (by decide)).2⟩

/-- C7: an empty Smarty result set short-circuits to the exact outcome
(empty standardized address, UNVERIFIABLE, no corrections, the single warning
"No matching address found") without classifying any candidate. -/
theorem smarty_empty_result_short_circuit (address : String) :
    smartyHandleData [] address =
      { standardized := { number := none, street := none, city := none, state := none, zip := none }
        status := ValidationStatus.UNVERIFIABLE
        corrections := []
        warnings := ["No matching address found"] } := rfl

/-- C8: the standardized street from Smarty components is the single-space join,
in the fixed order predirection, name, suffix, postdirection, of exactly the
non-empty parts (absent when none is present); the zip is the zipcode alone when
no plus-4 code is present, and "zipcode-plus4" when both are present. -/
theorem smarty_street_zip_spec (components : SmartyComponents) :
    ((extractStandardizedAddress components).street =
      if smartyStreetParts components = [] then none
      else some (String.intercalate " " (smartyStreetParts components))) ∧
    (strTruthy components.plus4_code = false →
      (extractStandardizedAddress components).zip = components.zipcode) ∧
    (strTruthy components.zipcode = true → strTruthy components.plus4_code = true →
      (extractStandardizedAddress components).zip =
        some (components.zipcode.getD "" ++ "-" ++ components.plus4_code.getD "")) := by
  refine ⟨?_, ?_, ?_⟩
  · have h := filter_truthy_eq [components.street_predirection, components.street_name,
      components.street_suffix, components.street_postdirection]
    by_cases hL : smartyStreetParts components = [] <;>
      simp_all [extractStandardizedAddress, smartyStreetParts,
        List.length_pos, List.length_eq_zero]
  · intro h4
    simp [extractStandardizedAddress, h4]
  · intro hz h4
    simp [extractStandardizedAddress, hz, h4]

theorem smarty_street_zip_spec_witness :
    strTruthy sComponentsBase.zipcode = true ∧ strTruthy sComponentsBase.plus4_code = true ∧
    (extractStandardizedAddress sComponentsBase).zip =
      some (sComponentsBase.zipcode.getD "" ++ "-" ++ sComponentsBase.plus4_code.getD "") :=
  ⟨by decide, by decide, (smarty_street_zip_spec sComponentsBase).2.2 (by decide) (by decide)⟩

/-- C9: every classification result whose status is CORRECTED or UNVERIFIABLE —
from `parseGoogleResponse`, `parseSmartyResponse`, or `smartyHandleData`
(including the empty-result branch) — carries at least one correction or warning. -/
theorem nonValid_result_has_message :
    (∀ response : GoogleValidationResponse,
      ((parseGoogleResponse response).status = ValidationStatus.CORRECTED ∨
       (parseGoogleResponse response).status = ValidationStatus.UNVERIFIABLE) →
      (parseGoogleResponse response).corrections ++ (parseGoogleResponse response).warnings ≠ []) ∧
    (∀ (candidate : SmartyCandidate) (address : String),
      ((parseSmartyResponse candidate address).status = ValidationStatus.CORRECTED ∨
       (parseSmartyResponse candidate address).status = ValidationStatus.UNVERIFIABLE) →
      (parseSmartyResponse candidate address).corrections ++
        (parseSmartyResponse candidate address).warnings ≠ []) ∧
    (∀ (data : List SmartyCandidate) (address : String),
      ((smartyHandleData data address).status = ValidationStatus.CORRECTED ∨
       (smartyHandleData data address).status = ValidationStatus.UNVERIFIABLE) →
      (smartyHandleData data address).corrections ++ (smartyHandleData data address).warnings ≠ []) := by
  have hg : ∀ response : GoogleValidationResponse,
      ((parseGoogleResponse response).status = ValidationStatus.CORRECTED ∨
       (parseGoogleResponse response).status = ValidationStatus.UNVERIFIABLE) →
      (parseGoogleResponse response).corrections ++ (parseGoogleResponse response).warnings ≠ [] := by
    intro response h
    have hm : Messaged
        (googleGranularityStep response.result.verdict.validationGranularity
          (googleUnconfirmedStep response.result.verdict.hasUnconfirmedComponents
            response.result.address.addressComponents
            (googleReplacedStep response.result.verdict.hasReplacedComponents
              (googleCompleteStep response.result.verdict.addressComplete
                (googleRegionStep response.result.address.postalAddress.regionCode
                  initialState))))) :=
      messaged_googleGranularityStep _ _
        (messaged_googleUnconfirmedStep _ _ _
          (messaged_googleReplacedStep _ _
            (messaged_googleCompleteStep _ _
              (messaged_googleRegionStep _ _ messaged_initial))))
    refine hm ?_
    rcases h with h | h <;> simp [parseGoogleResponse] at h <;> simp [h]
  have hs : ∀ (candidate : SmartyCandidate) (address : String),
      ((parseSmartyResponse candidate address).status = ValidationStatus.CORRECTED ∨
       (parseSmartyResponse candidate address).status = ValidationStatus.UNVERIFIABLE) →
      (parseSmartyResponse candidate address).corrections ++
        (parseSmartyResponse candidate address).warnings ≠ [] := by
    intro candidate address h
    have hm : Messaged
        (smartyRecordTypeStep candidate.metadata.record_type
          (smartyVacantStep candidate.analysis.dpv_vacant
            (smartyDeliveryLineStep candidate.delivery_line_1 address
              (smartyEnhancedStep candidate.analysis.enhanced_match
                (smartyMatchCodeStep candidate.analysis.dpv_match_code initialState))))) :=
      messaged_smartyRecordTypeStep _ _
        (messaged_smartyVacantStep _ _
          (messaged_smartyDeliveryLineStep _ _ _
            (messaged_smartyEnhancedStep _ _
              (messaged_smartyMatchCodeStep _ _ messaged_initial))))
    refine hm ?_
    rcases h with h | h <;> simp [parseSmartyResponse] at h <;> simp [h]
  refine ⟨hg, hs, ?_⟩
  intro data address h
  match data with
  | [] => simp [smartyHandleData]
  | c :: rest => exact hs c address h

theorem nonValid_result_has_message_witness :
    ((parseSmartyResponse sCandidateN ("x")).status = ValidationStatus.CORRECTED ∨
     (parseSmartyResponse sCandidateN ("x")).status = ValidationStatus.UNVERIFIABLE) ∧
    (parseSmartyResponse sCandidateN ("x")).corrections ++
      (parseSmartyResponse sCandidateN ("x")).warnings ≠ [] :=
  ⟨Or.inr rfl, nonValid_result_has_message.2.1 sCandidateN ("x") (Or.inr rfl)⟩

/-- C10: with a non-empty Smarty result set, only the first candidate is
classified and standardized; any further candidates are ignored, so two result
sets agreeing on their first candidate yield identical outcomes. -/
theorem smarty_first_candidate_only (candidate : SmartyCandidate)
    (rest rest' : List SmartyCandidate) (address : String) :
    smartyHandleData (candidate :: rest) address = parseSmartyResponse candidate address ∧
    smartyHandleData (candidate :: rest) address = smartyHandleData (candidate :: rest') address :=
  ⟨rfl, rfl⟩

end AddressValidator
